import Mathlib

set_option maxRecDepth 100000

/-!
# Verification of the scratch-dds container codec

Shallow embedding of `src/scratch_image.rs` (the `ScratchImage` container:
load, construction, serialization, accessors) together with the parts of the
`dds` module it uses (header layout, format tables, size arithmetic), which
are modelled from the specification since their source is not part of the
repository snapshot.

Machine integers (`u32`) are modelled as `Nat` with explicit reduction
modulo `2^32` at every arithmetic step that the Rust code performs on `u32`
values (release/wrapping semantics; shifts use the masked shift amount).
Byte streams are `List Nat` whose elements are bytes (`< 256`); the decoder
reduces every byte modulo 256 so that decoded fields are always in `u32`
range.
-/

/-- `2^32`, the modulus of `u32` arithmetic. -/
def U32M : Nat := 4294967296

/-- Wrapping `u32` addition. -/
def add32 (a b : Nat) : Nat := (a + b) % U32M

/-- Wrapping `u32` multiplication. -/
def mul32 (a b : Nat) : Nat := (a * b) % U32M

/-- `u32` right shift with masked shift amount (Rust release semantics of
`x >> s` on `u32`: the shift amount is taken modulo 32). -/
def shr32 (a s : Nat) : Nat := a >>> (s % 32)

/-! ## Format tables (dds module)

Modelled from the spec: the `dds` module's format-classification tables are
not in the repository snapshot.  §4.1: `is_block_compressed` is true exactly
for the BC1–BC7 family; `bits_per_pixel` is a lookup of per-texel bit width
for uncompressed formats; `block_size` returns 8 bytes for the
4-bit-per-texel-equivalent block formats (BC1, BC4) and 16 for the rest.
DXGI format codes follow the standard enumeration (BC1 = 70–72, …,
BC7 = 97–99, R8G8B8A8 family = 27–32 at 32 bpp, R32G32B32A32 family = 1–4 at
128 bpp). An unmapped code is a contract violation in the source; the model
returns 0 bits per pixel for it. -/

/-- Modelled from the spec: §4.1, block-compressed classification (BC1–BC7
family and variants; everything else, including unknown codes, uncompressed). -/
def is_block_compressed (fmt : Nat) : Bool :=
  (70 ≤ fmt && fmt ≤ 84) || (94 ≤ fmt && fmt ≤ 99)

/-- Modelled from the spec: §4.1, per-texel bit width of uncompressed formats
(128 for 32-bit-per-channel RGBA, 32 for 8-bit-per-channel RGBA, etc.);
0 for unmapped codes (unreachable by contract in the source). -/
def bits_per_pixel (fmt : Nat) : Nat :=
  if 1 ≤ fmt && fmt ≤ 4 then 128
  else if 5 ≤ fmt && fmt ≤ 8 then 96
  else if 9 ≤ fmt && fmt ≤ 22 then 64
  else if 23 ≤ fmt && fmt ≤ 47 then 32
  else if 48 ≤ fmt && fmt ≤ 59 then 16
  else if 60 ≤ fmt && fmt ≤ 65 then 8
  else 0

/-- Modelled from the spec: §4.1, bytes per compressed block — 8 for the
4-bit-per-texel-equivalent formats (BC1 = 70–72, BC4 = 79–81), 16 for the
rest; still returns a value for uncompressed formats. -/
def block_size (fmt : Nat) : Nat :=
  if (70 ≤ fmt && fmt ≤ 72) || (79 ≤ fmt && fmt ≤ 81) then 8 else 16

/-- Modelled from the spec: §4.2, row pitch and linear size of one mip level.
Compressed: `blocks_wide = max(1, ceil(width/4))`, `blocks_high = max(1,
ceil(height/4))`, `row_pitch = blocks_wide * block_size`, `linear_size =
row_pitch * blocks_high`.  Uncompressed: `row_pitch = ceil(width * bpp / 8)`,
`linear_size = row_pitch * height`.  All arithmetic is `u32`. -/
def pitch_and_linear_size (width height fmt : Nat) : Nat × Nat :=
  if is_block_compressed fmt then
    let blocks_wide := max 1 (add32 width 3 / 4)
    let blocks_high := max 1 (add32 height 3 / 4)
    let row_pitch := mul32 blocks_wide (block_size fmt)
    (row_pitch, mul32 row_pitch blocks_high)
  else
    let row_pitch := add32 (mul32 width (bits_per_pixel fmt)) 7 / 8
    (row_pitch, mul32 row_pitch height)

/-! ## DDS constants (dds module)

Modelled from the spec: standard DDS/D3D10 flag and enumeration values
(§3, §4.5, §6); only the cubemap bit and the distinctness of the resource
dimensions matter for the properties below. -/

def DDSD_CAPS : Nat := 0x1
def DDSD_HEIGHT : Nat := 0x2
def DDSD_WIDTH : Nat := 0x4
def DDSD_PIXELFORMAT : Nat := 0x1000
def DDSD_MIPMAPCOUNT : Nat := 0x20000
def DDSD_LINEARSIZE : Nat := 0x80000
def DDSD_DEPTH : Nat := 0x800000
def DDSCAPS_COMPLEX : Nat := 0x8
def DDSCAPS_MIPMAP : Nat := 0x400000
def DDSCAPS_TEXTURE : Nat := 0x1000
def DDSCAPS2_CUBEMAP : Nat := 0x200
def DDSCAPS2_CUBEMAP_POSITIVEX : Nat := 0x400
def DDSCAPS2_CUBEMAP_NEGATIVEX : Nat := 0x800
def DDSCAPS2_CUBEMAP_POSITIVEY : Nat := 0x1000
def DDSCAPS2_CUBEMAP_NEGATIVEY : Nat := 0x2000
def DDSCAPS2_CUBEMAP_POSITIVEZ : Nat := 0x4000
def DDSCAPS2_CUBEMAP_NEGATIVEZ : Nat := 0x8000
def DDSCAPS2_VOLUME : Nat := 0x200000
def DDPF_FOURCC : Nat := 0x4
def DDS_RESOURCE_MISC_TEXTURECUBE : Nat := 0x4
def D3D10_RESOURCE_DIMENSION_UNKNOWN : Nat := 0
def D3D10_RESOURCE_DIMENSION_TEXTURE1D : Nat := 2
def D3D10_RESOURCE_DIMENSION_TEXTURE2D : Nat := 3
def D3D10_RESOURCE_DIMENSION_TEXTURE3D : Nat := 4

/-- The magic `"DDS "` as a little-endian `u32` word (`0x44, 0x44, 0x53, 0x20`). -/
def MAGIC_DDS : Nat := 0x20534444

/-- The codec tag `"DX10"` as a little-endian `u32` word (`0x44, 0x58, 0x31, 0x30`). -/
def FOURCC_DX10 : Nat := 0x30315844

/-! ## Header records (dds module)

Modelled from the spec: the fixed 148-byte layout of §6 — base header,
embedded 32-byte pixel-format sub-record, embedded 20-byte extended (DX10)
sub-record.  The 4-byte `magic` and `four_cc` fields are carried as their
little-endian `u32` word; the 11 reserved words are carried as individual
fields. -/

structure DirectDrawPixelFormat where
  size : Nat
  flags : Nat
  four_cc : Nat
  rgb_bit_count : Nat
  red_bit_mask : Nat
  green_bit_mask : Nat
  blue_bit_mask : Nat
  alpha_bit_mask : Nat
deriving DecidableEq

structure DirectDrawHeader10 where
  dxgi_format : Nat
  resource_dimension : Nat
  misc_flag : Nat
  array_size : Nat
  misc_flags2 : Nat
deriving DecidableEq

structure DirectDrawHeader where
  magic : Nat
  size : Nat
  flags : Nat
  height : Nat
  width : Nat
  pitch_or_linear_size : Nat
  depth : Nat
  mipmap_count : Nat
  reserved0 : Nat
  reserved1 : Nat
  reserved2a : Nat
  reserved3 : Nat
  reserved4 : Nat
  reserved5 : Nat
  reserved6 : Nat
  reserved7 : Nat
  reserved8 : Nat
  reserved9 : Nat
  reserved10 : Nat
  pixel_format : DirectDrawPixelFormat
  caps : Nat
  caps2 : Nat
  caps3 : Nat
  caps4 : Nat
  reserved2 : Nat
  dxt10 : DirectDrawHeader10
deriving DecidableEq

/-- The 37 `u32` words of a header, in layout order (§6: 8 base words,
11 reserved, 8 pixel-format, 4 caps, 1 reserved2, 5 extended). -/
def headerWords (h : DirectDrawHeader) : List Nat :=
  [h.magic, h.size, h.flags, h.height, h.width, h.pitch_or_linear_size,
   h.depth, h.mipmap_count,
   h.reserved0, h.reserved1, h.reserved2a, h.reserved3, h.reserved4,
   h.reserved5, h.reserved6, h.reserved7, h.reserved8, h.reserved9,
   h.reserved10,
   h.pixel_format.size, h.pixel_format.flags, h.pixel_format.four_cc,
   h.pixel_format.rgb_bit_count, h.pixel_format.red_bit_mask,
   h.pixel_format.green_bit_mask, h.pixel_format.blue_bit_mask,
   h.pixel_format.alpha_bit_mask,
   h.caps, h.caps2, h.caps3, h.caps4, h.reserved2,
   h.dxt10.dxgi_format, h.dxt10.resource_dimension, h.dxt10.misc_flag,
   h.dxt10.array_size, h.dxt10.misc_flags2]

/-- Little-endian bytes of one `u32` word. -/
def w32 (n : Nat) : List Nat :=
  [n % 256, n / 256 % 256, n / 65536 % 256, n / 16777216 % 256]

/-- Modelled from the spec: §4.3/§6, bit-exact little-endian encoding of the
148-byte header (`bytemuck::bytes_of` on the `repr(C)` record). -/
def encodeHeader (h : DirectDrawHeader) : List Nat :=
  (headerWords h).flatMap w32

/-- A `u32` word from four little-endian bytes (each byte reduced mod 256). -/
def le4 (b0 b1 b2 b3 : Nat) : Nat :=
  b0 % 256 + b1 % 256 * 256 + b2 % 256 * 65536 + b3 % 256 * 16777216

/-- Word number `i` of a byte stream, little-endian. -/
def u32At (bs : List Nat) (i : Nat) : Nat :=
  le4 (bs.getD (4 * i) 0) (bs.getD (4 * i + 1) 0)
      (bs.getD (4 * i + 2) 0) (bs.getD (4 * i + 3) 0)

/-- Modelled from the spec: §4.3/§6, decoding a 148-byte window as a header
(`bytemuck::from_bytes`, little-endian, no padding). -/
def decodeHeader (bs : List Nat) : DirectDrawHeader :=
  { magic := u32At bs 0
    size := u32At bs 1
    flags := u32At bs 2
    height := u32At bs 3
    width := u32At bs 4
    pitch_or_linear_size := u32At bs 5
    depth := u32At bs 6
    mipmap_count := u32At bs 7
    reserved0 := u32At bs 8
    reserved1 := u32At bs 9
    reserved2a := u32At bs 10
    reserved3 := u32At bs 11
    reserved4 := u32At bs 12
    reserved5 := u32At bs 13
    reserved6 := u32At bs 14
    reserved7 := u32At bs 15
    reserved8 := u32At bs 16
    reserved9 := u32At bs 17
    reserved10 := u32At bs 18
    pixel_format :=
      { size := u32At bs 19
        flags := u32At bs 20
        four_cc := u32At bs 21
        rgb_bit_count := u32At bs 22
        red_bit_mask := u32At bs 23
        green_bit_mask := u32At bs 24
        blue_bit_mask := u32At bs 25
        alpha_bit_mask := u32At bs 26 }
    caps := u32At bs 27
    caps2 := u32At bs 28
    caps3 := u32At bs 29
    caps4 := u32At bs 30
    reserved2 := u32At bs 31
    dxt10 :=
      { dxgi_format := u32At bs 32
        resource_dimension := u32At bs 33
        misc_flag := u32At bs 34
        array_size := u32At bs 35
        misc_flags2 := u32At bs 36 } }

/-! ## The container (src/scratch_image.rs) -/

/-- `scratch_image.rs` error enumeration (`Error`); the `IO` variant is
modelled without its payload. -/
inductive Error where
  | BadFileMagic
  | BadFileHeader
  | BadPixelFormat
  | BadLinearSize
  | BadPitch
  | BadDataSize
  | NotImplementedYet (msg : String)
  | IOFailure
deriving DecidableEq

structure ScratchImage where
  dds_header : DirectDrawHeader
  dds_data : List Nat
deriving DecidableEq

instance : DecidableEq (Except Error ScratchImage) := fun x y =>
  match x, y with
  | Except.ok a, Except.ok b =>
    if h : a = b then isTrue (by rw [h]) else isFalse (by simp [h])
  | Except.error a, Except.error b =>
    if h : a = b then isTrue (by rw [h]) else isFalse (by simp [h])
  | Except.ok _, Except.error _ => isFalse (by simp)
  | Except.error _, Except.ok _ => isFalse (by simp)

/-- The accumulation loop shared by both paths (`for mip in 1..mipmap_count`),
starting from the mip-0 linear size: `u32` sum of the linear sizes
`pitch_and_linear_size(width >> mip, height >> mip, format)` for
`mip` in `1 .. mipmap_count`. -/
def mipLoop (width height fmt mipCount init : Nat) : Nat :=
  (List.range' 1 (mipCount - 1)).foldl
    (fun acc mip =>
      add32 acc (pitch_and_linear_size (shr32 width mip) (shr32 height mip) fmt).2)
    init

/-- Tail of the load path after the mip-0 validation: accumulate
`image_data_size` over mips 1.., multiply by 6 when the cubemap misc-flag bit
is set, then require it to equal the payload length (cast to `u32`). -/
def from_reader_size_check (header : DirectDrawHeader) (dds_data : List Nat) :
    Except Error ScratchImage :=
  let image_data_size :=
    mipLoop header.width header.height header.dxt10.dxgi_format
      header.mipmap_count
      (pitch_and_linear_size header.width header.height header.dxt10.dxgi_format).2
  let image_data_size :=
    if header.dxt10.misc_flag &&& DDS_RESOURCE_MISC_TEXTURECUBE =
        DDS_RESOURCE_MISC_TEXTURECUBE then
      mul32 image_data_size 6
    else image_data_size
  if image_data_size ≠ dds_data.length % U32M then Except.error Error.BadDataSize
  else Except.ok { dds_header := header, dds_data := dds_data }

/-- The load path after the header window and the remaining bytes have been
read: the four header validations, then the mip-0 pitch/linear-size
validation, then the total-size check. -/
def from_reader_core (header : DirectDrawHeader) (dds_data : List Nat) :
    Except Error ScratchImage :=
  if header.magic ≠ MAGIC_DDS then Except.error Error.BadFileMagic
  else if header.size ≠ 124 then Except.error Error.BadFileHeader
  else if header.pixel_format.size ≠ 32 then Except.error Error.BadPixelFormat
  else if header.pixel_format.four_cc ≠ FOURCC_DX10 then
    Except.error (Error.NotImplementedYet
      "File does not have DX10 headers, DX9 files are not implemented yet")
  else
    let rp :=
      pitch_and_linear_size header.width header.height header.dxt10.dxgi_format
    if is_block_compressed header.dxt10.dxgi_format then
      if rp.2 ≠ header.pitch_or_linear_size then Except.error Error.BadLinearSize
      else from_reader_size_check header dds_data
    else
      if rp.1 ≠ header.pitch_or_linear_size then Except.error Error.BadPitch
      else from_reader_size_check header dds_data

/-- `ScratchImage::from_reader`: read exactly 148 header bytes (an input
shorter than that is an I/O failure of `read_exact`), decode that window,
validate, read the rest as the payload, validate sizes.  `decodeHeader`
reads only byte indices 0–147, so decoding `bs` is decoding its 148-byte
window. -/
def ScratchImage.from_reader (bs : List Nat) : Except Error ScratchImage :=
  if bs.length < 148 then Except.error Error.IOFailure
  else from_reader_core (decodeHeader bs) (bs.drop 148)

/-- `ScratchImage::new`: derive every flag from the inputs, compute
`pitch_or_linear_size` for mip 0, accumulate the payload size over the mip
chain, multiply by 6 for a cubemap and by `array_size`, and allocate a
zero-filled payload of that length.  The shadowed `let`s mirror the source's
sequential `|=` mutations. -/
def ScratchImage.new (width height depth mipmap_count array_size dxgi_format : Nat)
    (is_cubemap : Bool) : ScratchImage :=
  let flags := DDSD_CAPS ||| DDSD_PIXELFORMAT
  let resource_dimension := D3D10_RESOURCE_DIMENSION_UNKNOWN
  let caps := DDSCAPS_TEXTURE
  let caps2 := 0
  let flags := if is_block_compressed dxgi_format then flags ||| DDSD_LINEARSIZE else flags
  let flags := if width > 1 then flags ||| DDSD_WIDTH else flags
  let resource_dimension :=
    if width > 1 then D3D10_RESOURCE_DIMENSION_TEXTURE1D else resource_dimension
  let flags := if height > 1 then flags ||| DDSD_HEIGHT else flags
  let resource_dimension :=
    if height > 1 then D3D10_RESOURCE_DIMENSION_TEXTURE2D else resource_dimension
  let flags := if depth > 1 then flags ||| DDSD_DEPTH else flags
  let resource_dimension :=
    if depth > 1 then D3D10_RESOURCE_DIMENSION_TEXTURE3D else resource_dimension
  let caps := if depth > 1 then caps ||| DDSCAPS_COMPLEX else caps
  let caps2 := if depth > 1 then caps2 ||| DDSCAPS2_VOLUME else caps2
  let flags := if mipmap_count > 1 then flags ||| DDSD_MIPMAPCOUNT else flags
  let caps := if mipmap_count > 1 then caps ||| DDSCAPS_MIPMAP ||| DDSCAPS_COMPLEX else caps
  let caps := if is_cubemap then caps ||| DDSCAPS_COMPLEX else caps
  let caps2 :=
    if is_cubemap then
      caps2 ||| DDSCAPS2_CUBEMAP ||| DDSCAPS2_CUBEMAP_POSITIVEX |||
      DDSCAPS2_CUBEMAP_NEGATIVEX ||| DDSCAPS2_CUBEMAP_POSITIVEY |||
      DDSCAPS2_CUBEMAP_NEGATIVEY ||| DDSCAPS2_CUBEMAP_POSITIVEZ |||
      DDSCAPS2_CUBEMAP_NEGATIVEZ
    else caps2
  let misc_flag := if is_cubemap then 0 ||| DDS_RESOURCE_MISC_TEXTURECUBE else 0
  let rp := pitch_and_linear_size width height dxgi_format
  let dds_header : DirectDrawHeader :=
    { magic := MAGIC_DDS
      size := 124
      flags := flags
      height := height
      width := width
      pitch_or_linear_size :=
        if is_block_compressed dxgi_format then rp.2 else rp.1
      depth := depth
      mipmap_count := mipmap_count
      reserved0 := 0, reserved1 := 0, reserved2a := 0, reserved3 := 0
      reserved4 := 0, reserved5 := 0, reserved6 := 0, reserved7 := 0
      reserved8 := 0, reserved9 := 0, reserved10 := 0
      pixel_format :=
        { size := 32
          flags := DDPF_FOURCC
          four_cc := FOURCC_DX10
          rgb_bit_count := 0
          red_bit_mask := 0
          green_bit_mask := 0
          blue_bit_mask := 0
          alpha_bit_mask := 0 }
      caps := caps
      caps2 := caps2
      caps3 := 0
      caps4 := 0
      reserved2 := 0
      dxt10 :=
        { dxgi_format := dxgi_format
          resource_dimension := resource_dimension
          misc_flag := misc_flag
          array_size := array_size
          misc_flags2 := 0 } }
  let image_data_size := mipLoop width height dxgi_format mipmap_count rp.2
  let image_data_size := if is_cubemap then mul32 image_data_size 6 else image_data_size
  let image_data_size := mul32 image_data_size array_size
  { dds_header := dds_header, dds_data := List.replicate image_data_size 0 }

/-- `ScratchImage::write_to`: the encoded 148-byte header followed by the
payload, no separators. -/
def ScratchImage.write_to (img : ScratchImage) : List Nat :=
  encodeHeader img.dds_header ++ img.dds_data

/-- `ScratchImage::is_texture1d`. -/
def ScratchImage.is_texture1d (img : ScratchImage) : Bool :=
  img.dds_header.dxt10.resource_dimension = D3D10_RESOURCE_DIMENSION_TEXTURE1D

/-- `ScratchImage::is_texture2d`. -/
def ScratchImage.is_texture2d (img : ScratchImage) : Bool :=
  img.dds_header.dxt10.resource_dimension = D3D10_RESOURCE_DIMENSION_TEXTURE2D

/-- `ScratchImage::is_texture3d`. -/
def ScratchImage.is_texture3d (img : ScratchImage) : Bool :=
  img.dds_header.dxt10.resource_dimension = D3D10_RESOURCE_DIMENSION_TEXTURE3D

/-- `ScratchImage::is_cubemap`: bit test on the extended header's misc flags. -/
def ScratchImage.is_cubemap (img : ScratchImage) : Bool :=
  img.dds_header.dxt10.misc_flag &&& DDS_RESOURCE_MISC_TEXTURECUBE =
    DDS_RESOURCE_MISC_TEXTURECUBE

/-- `ScratchImage::as_typed_slice::<T>`, abstracted over `size_of::<T>()`:
returns the element count passed to `slice::from_raw_parts` when the gate
passes (`none` when `bits_per_pixel(format)/8 ≠ size_of::<T>()`).  The source
passes `self.dds_data.len() * target_size` as that count. -/
def ScratchImage.as_typed_slice (img : ScratchImage) (target_size : Nat) :
    Option Nat :=
  let source_size := bits_per_pixel img.dds_header.dxt10.dxgi_format / 8
  if source_size = target_size then some (img.dds_data.length * target_size)
  else none

/-- `ScratchImage::as_typed_slice_mut::<T>`: same gate and same element count
as the immutable view. -/
def ScratchImage.as_typed_slice_mut (img : ScratchImage) (target_size : Nat) :
    Option Nat :=
  let source_size := bits_per_pixel img.dds_header.dxt10.dxgi_format / 8
  if source_size = target_size then some (img.dds_data.length * target_size)
  else none

/-! ## Claim-side size formulas -/

/-- The mip-chain sum as the claims state it: the linear size of mip 0 plus
the linear sizes of `width >> mip`, `height >> mip` for `mip` in
`1 .. mipmap_count`, in `u32` arithmetic. -/
def mipChainSize (width height fmt mipCount : Nat) : Nat :=
  mipLoop width height fmt mipCount (pitch_and_linear_size width height fmt).2

/-- The expected payload size the load path checks against: the mip-chain
sum, times 6 when the cubemap misc-flag bit is set; no array multiplier. -/
def loadExpectedSize (header : DirectDrawHeader) : Nat :=
  let s := mipChainSize header.width header.height header.dxt10.dxgi_format
    header.mipmap_count
  if header.dxt10.misc_flag &&& DDS_RESOURCE_MISC_TEXTURECUBE =
      DDS_RESOURCE_MISC_TEXTURECUBE then mul32 s 6
  else s

/-- The payload size the construction path allocates: the mip-chain sum,
times 6 when `is_cubemap`, times `array_size`. -/
def newExpectedSize (width height fmt mipCount array_size : Nat)
    (is_cubemap : Bool) : Nat :=
  mul32 (mul32 (mipChainSize width height fmt mipCount)
    (if is_cubemap then 6 else 1)) array_size

/-! ## Basic bounds -/

theorem add32_lt (a b : Nat) : add32 a b < U32M :=
  Nat.mod_lt _ (by simp [U32M])

theorem mul32_lt (a b : Nat) : mul32 a b < U32M :=
  Nat.mod_lt _ (by simp [U32M])

theorem mul32_one (a : Nat) (h : a < U32M) : mul32 a 1 = a := by
  simp [mul32, Nat.mod_eq_of_lt h]

theorem le4_lt (b0 b1 b2 b3 : Nat) : le4 b0 b1 b2 b3 < U32M := by
  simp only [le4, U32M]
  omega

theorem u32At_lt (bs : List Nat) (i : Nat) : u32At bs i < U32M :=
  le4_lt _ _ _ _

theorem pals_fst_lt (w h fmt : Nat) : (pitch_and_linear_size w h fmt).1 < U32M := by
  unfold pitch_and_linear_size
  split
  · exact mul32_lt _ _
  · exact Nat.lt_of_le_of_lt (Nat.div_le_self _ _) (add32_lt _ _)

theorem pals_snd_lt (w h fmt : Nat) : (pitch_and_linear_size w h fmt).2 < U32M := by
  unfold pitch_and_linear_size
  split <;> exact mul32_lt _ _

theorem mipLoop_lt (w h fmt m init : Nat) (hinit : init < U32M) :
    mipLoop w h fmt m init < U32M := by
  unfold mipLoop
  generalize List.range' 1 (m - 1) = l
  induction l generalizing init with
  | nil => exact hinit
  | cons x tl ih => exact ih _ (add32_lt _ _)

theorem mipChainSize_lt (w h fmt m : Nat) : mipChainSize w h fmt m < U32M :=
  mipLoop_lt _ _ _ _ _ (pals_snd_lt _ _ _)

theorem loadExpectedSize_lt (hdr : DirectDrawHeader) : loadExpectedSize hdr < U32M := by
  unfold loadExpectedSize
  split
  · exact mul32_lt _ _
  · exact mipChainSize_lt _ _ _ _

/-! ## Header codec round trip -/

/-- All 37 words of the header are in `u32` range. -/
def HeaderWF (h : DirectDrawHeader) : Prop :=
  ∀ wrd ∈ headerWords h, wrd < U32M

theorem headerWF_decode (bs : List Nat) : HeaderWF (decodeHeader bs) := by
  intro wrd hw
  simp only [headerWords, decodeHeader, List.mem_cons, List.not_mem_nil, or_false] at hw
  rcases hw with rfl | rfl | rfl | rfl | rfl | rfl | rfl | rfl | rfl | rfl | rfl | rfl |
    rfl | rfl | rfl | rfl | rfl | rfl | rfl | rfl | rfl | rfl | rfl | rfl | rfl | rfl |
    rfl | rfl | rfl | rfl | rfl | rfl | rfl | rfl | rfl | rfl | rfl <;>
    exact u32At_lt _ _

theorem getD_cons4 (x0 x1 x2 x3 : Nat) (R : List Nat) (n : Nat) :
    (x0 :: x1 :: x2 :: x3 :: R).getD (n + 4) 0 = R.getD n 0 := by
  rw [show n + 4 = n + 1 + 1 + 1 + 1 by omega]
  simp [List.getD_cons_succ]

theorem u32At_word (ws : List Nat) (extra : List Nat) :
    ∀ i, i < ws.length → u32At (ws.flatMap w32 ++ extra) i = ws.getD i 0 % U32M := by
  induction ws generalizing extra with
  | nil => intro i hi; simp at hi
  | cons wd tl ih =>
    intro i hi
    have hrep : (wd :: tl).flatMap w32 ++ extra =
        wd % 256 :: wd / 256 % 256 :: wd / 65536 % 256 :: wd / 16777216 % 256 ::
          (tl.flatMap w32 ++ extra) := by
      simp [w32, List.flatMap_cons]
    rw [hrep]
    cases i with
    | zero =>
      show u32At _ 0 = wd % U32M
      simp only [u32At, le4, U32M]
      norm_num [List.getD]
      omega
    | succ j =>
      have hj : j < tl.length := by simpa using hi
      have hstep : u32At (wd % 256 :: wd / 256 % 256 :: wd / 65536 % 256 ::
          wd / 16777216 % 256 :: (tl.flatMap w32 ++ extra)) (j + 1) =
          u32At (tl.flatMap w32 ++ extra) j := by
        simp only [u32At]
        rw [show 4 * (j + 1) = 4 * j + 4 by omega,
            show 4 * j + 4 + 1 = 4 * j + 1 + 4 by omega,
            show 4 * j + 4 + 2 = 4 * j + 2 + 4 by omega,
            show 4 * j + 4 + 3 = 4 * j + 3 + 4 by omega,
            getD_cons4, getD_cons4, getD_cons4, getD_cons4]
      rw [hstep, ih extra j hj]
      simp [List.getD_cons_succ]

theorem encodeHeader_length (h : DirectDrawHeader) : (encodeHeader h).length = 148 := by
  simp [encodeHeader, headerWords, w32, List.flatMap_cons]

theorem decode_encode (h : DirectDrawHeader) (extra : List Nat) (hwf : HeaderWF h) :
    decodeHeader (encodeHeader h ++ extra) = h := by
  have hlen : (headerWords h).length = 37 := by simp [headerWords]
  have key : ∀ i, i < 37 → u32At (encodeHeader h ++ extra) i = (headerWords h).getD i 0 := by
    intro i hi
    have hil : i < (headerWords h).length := by omega
    rw [encodeHeader, u32At_word (headerWords h) extra i hil]
    exact Nat.mod_eq_of_lt (by
      rw [List.getD_eq_getElem _ _ hil]
      exact hwf _ (List.getElem_mem hil))
  obtain ⟨m, s, fl, he, wi, pol, de, mi, r0, r1, r2a, r3, r4, r5, r6, r7, r8, r9, r10,
    pf, c1, c2, c3, c4, r2, dx⟩ := h
  simp only [decodeHeader]
  rw [key 0 (by omega), key 1 (by omega), key 2 (by omega), key 3 (by omega),
      key 4 (by omega), key 5 (by omega), key 6 (by omega), key 7 (by omega),
      key 8 (by omega), key 9 (by omega), key 10 (by omega), key 11 (by omega),
      key 12 (by omega), key 13 (by omega), key 14 (by omega), key 15 (by omega),
      key 16 (by omega), key 17 (by omega), key 18 (by omega), key 19 (by omega),
      key 20 (by omega), key 21 (by omega), key 22 (by omega), key 23 (by omega),
      key 24 (by omega), key 25 (by omega), key 26 (by omega), key 27 (by omega),
      key 28 (by omega), key 29 (by omega), key 30 (by omega), key 31 (by omega),
      key 32 (by omega), key 33 (by omega), key 34 (by omega), key 35 (by omega),
      key 36 (by omega)]
  rfl

/-! ## Characterizing the load path -/

theorem ite_lt {c : Prop} [Decidable c] {x y n : Nat} (hx : x < n) (hy : y < n) :
    (if c then x else y) < n := by
  split <;> assumption

theorem or32_lt {x y : Nat} (hx : x < U32M) (hy : y < U32M) : x ||| y < U32M := by
  have h2 : U32M = 2 ^ 32 := by norm_num [U32M]
  rw [h2] at hx hy ⊢
  exact Nat.or_lt_two_pow hx hy

theorem size_check_eq (hdr : DirectDrawHeader) (data : List Nat) :
    from_reader_size_check hdr data =
      if loadExpectedSize hdr ≠ data.length % U32M then Except.error Error.BadDataSize
      else Except.ok { dds_header := hdr, dds_data := data } := rfl

theorem size_check_ok_inv (hdr : DirectDrawHeader) (data : List Nat) (img : ScratchImage)
    (hok : from_reader_size_check hdr data = Except.ok img) :
    img = { dds_header := hdr, dds_data := data } ∧
    loadExpectedSize hdr = data.length % U32M := by
  rw [size_check_eq] at hok
  by_cases h6 : loadExpectedSize hdr ≠ data.length % U32M
  · rw [if_pos h6] at hok
    exact Except.noConfusion hok
  · rw [if_neg h6] at hok
    injection hok with h
    exact ⟨h.symm, not_ne_iff.mp h6⟩

theorem from_reader_core_checks (hdr : DirectDrawHeader) (data : List Nat)
    (h1 : hdr.magic = MAGIC_DDS) (h2 : hdr.size = 124)
    (h3 : hdr.pixel_format.size = 32) (h4 : hdr.pixel_format.four_cc = FOURCC_DX10)
    (h5 : (if is_block_compressed hdr.dxt10.dxgi_format
        then (pitch_and_linear_size hdr.width hdr.height hdr.dxt10.dxgi_format).2
        else (pitch_and_linear_size hdr.width hdr.height hdr.dxt10.dxgi_format).1)
        = hdr.pitch_or_linear_size) :
    from_reader_core hdr data = from_reader_size_check hdr data := by
  simp only [from_reader_core]
  rw [if_neg (by simp [h1]), if_neg (by simp [h2]), if_neg (by simp [h3]),
      if_neg (by simp [h4])]
  by_cases hc : is_block_compressed hdr.dxt10.dxgi_format = true
  · rw [if_pos hc] at h5 ⊢
    rw [if_neg (by simp [h5])]
  · rw [if_neg hc] at h5 ⊢
    rw [if_neg (by simp [h5])]

theorem from_reader_checks (bs : List Nat) (hlen : 148 ≤ bs.length)
    (h1 : (decodeHeader bs).magic = MAGIC_DDS) (h2 : (decodeHeader bs).size = 124)
    (h3 : (decodeHeader bs).pixel_format.size = 32)
    (h4 : (decodeHeader bs).pixel_format.four_cc = FOURCC_DX10)
    (h5 : (if is_block_compressed (decodeHeader bs).dxt10.dxgi_format
        then (pitch_and_linear_size (decodeHeader bs).width (decodeHeader bs).height
          (decodeHeader bs).dxt10.dxgi_format).2
        else (pitch_and_linear_size (decodeHeader bs).width (decodeHeader bs).height
          (decodeHeader bs).dxt10.dxgi_format).1)
        = (decodeHeader bs).pitch_or_linear_size) :
    ScratchImage.from_reader bs =
      if loadExpectedSize (decodeHeader bs) ≠ (bs.drop 148).length % U32M
      then Except.error Error.BadDataSize
      else Except.ok { dds_header := decodeHeader bs, dds_data := bs.drop 148 } := by
  unfold ScratchImage.from_reader
  rw [if_neg (by omega), from_reader_core_checks _ _ h1 h2 h3 h4 h5, size_check_eq]

theorem from_reader_append (hdr : DirectDrawHeader) (data : List Nat)
    (hwf : HeaderWF hdr)
    (h1 : hdr.magic = MAGIC_DDS) (h2 : hdr.size = 124)
    (h3 : hdr.pixel_format.size = 32) (h4 : hdr.pixel_format.four_cc = FOURCC_DX10)
    (h5 : (if is_block_compressed hdr.dxt10.dxgi_format
        then (pitch_and_linear_size hdr.width hdr.height hdr.dxt10.dxgi_format).2
        else (pitch_and_linear_size hdr.width hdr.height hdr.dxt10.dxgi_format).1)
        = hdr.pitch_or_linear_size)
    (h6 : loadExpectedSize hdr = data.length % U32M) :
    ScratchImage.from_reader (encodeHeader hdr ++ data) =
      Except.ok { dds_header := hdr, dds_data := data } := by
  have hdec : decodeHeader (encodeHeader hdr ++ data) = hdr := decode_encode hdr data hwf
  have hdrop : (encodeHeader hdr ++ data).drop 148 = data := by
    rw [show (148 : Nat) = (encodeHeader hdr).length from (encodeHeader_length hdr).symm,
        List.drop_left]
  have hlen : 148 ≤ (encodeHeader hdr ++ data).length := by
    rw [List.length_append, encodeHeader_length]
    omega
  rw [from_reader_checks _ hlen (by rw [hdec]; exact h1) (by rw [hdec]; exact h2)
      (by rw [hdec]; exact h3) (by rw [hdec]; exact h4) (by rw [hdec]; exact h5),
      hdec, hdrop, if_neg (by simp [h6])]

theorem from_reader_ok_inv (bs : List Nat) (img : ScratchImage)
    (hok : ScratchImage.from_reader bs = Except.ok img) :
    img.dds_header = decodeHeader bs ∧ img.dds_data = bs.drop 148 ∧
    img.dds_header.magic = MAGIC_DDS ∧ img.dds_header.size = 124 ∧
    img.dds_header.pixel_format.size = 32 ∧
    img.dds_header.pixel_format.four_cc = FOURCC_DX10 ∧
    (if is_block_compressed img.dds_header.dxt10.dxgi_format
        then (pitch_and_linear_size img.dds_header.width img.dds_header.height
          img.dds_header.dxt10.dxgi_format).2
        else (pitch_and_linear_size img.dds_header.width img.dds_header.height
          img.dds_header.dxt10.dxgi_format).1)
      = img.dds_header.pitch_or_linear_size ∧
    loadExpectedSize img.dds_header = img.dds_data.length % U32M := by
  unfold ScratchImage.from_reader at hok
  by_cases hlen : bs.length < 148
  · rw [if_pos hlen] at hok
    exact Except.noConfusion hok
  rw [if_neg hlen] at hok
  simp only [from_reader_core] at hok
  by_cases h1 : (decodeHeader bs).magic = MAGIC_DDS
  swap
  · rw [if_pos h1] at hok
    exact Except.noConfusion hok
  rw [if_neg (by simp [h1])] at hok
  by_cases h2 : (decodeHeader bs).size = 124
  swap
  · rw [if_pos h2] at hok
    exact Except.noConfusion hok
  rw [if_neg (by simp [h2])] at hok
  by_cases h3 : (decodeHeader bs).pixel_format.size = 32
  swap
  · rw [if_pos h3] at hok
    exact Except.noConfusion hok
  rw [if_neg (by simp [h3])] at hok
  by_cases h4 : (decodeHeader bs).pixel_format.four_cc = FOURCC_DX10
  swap
  · rw [if_pos h4] at hok
    exact Except.noConfusion hok
  rw [if_neg (by simp [h4])] at hok
  by_cases hc : is_block_compressed (decodeHeader bs).dxt10.dxgi_format = true
  · rw [if_pos hc] at hok
    by_cases h5c : (pitch_and_linear_size (decodeHeader bs).width (decodeHeader bs).height
        (decodeHeader bs).dxt10.dxgi_format).2 ≠ (decodeHeader bs).pitch_or_linear_size
    · rw [if_pos h5c] at hok
      exact Except.noConfusion hok
    rw [if_neg h5c] at hok
    obtain ⟨rfl, hsz⟩ := size_check_ok_inv _ _ _ hok
    exact ⟨rfl, rfl, h1, h2, h3, h4, by rw [if_pos hc]; exact not_ne_iff.mp h5c, hsz⟩
  · rw [if_neg hc] at hok
    by_cases h5c : (pitch_and_linear_size (decodeHeader bs).width (decodeHeader bs).height
        (decodeHeader bs).dxt10.dxgi_format).1 ≠ (decodeHeader bs).pitch_or_linear_size
    · rw [if_pos h5c] at hok
      exact Except.noConfusion hok
    rw [if_neg h5c] at hok
    obtain ⟨rfl, hsz⟩ := size_check_ok_inv _ _ _ hok
    exact ⟨rfl, rfl, h1, h2, h3, h4, by rw [if_neg hc]; exact not_ne_iff.mp h5c, hsz⟩

/-! ## Characterizing the construction path -/

theorem new_dds_data (w h d m a fmt : Nat) (cube : Bool) :
    (ScratchImage.new w h d m a fmt cube).dds_data =
      List.replicate (newExpectedSize w h fmt m a cube) 0 := by
  simp only [ScratchImage.new, newExpectedSize, mipChainSize]
  cases cube
  · rw [if_neg (by simp), if_neg (by simp),
        mul32_one _ (mipLoop_lt _ _ _ _ _ (pals_snd_lt _ _ _))]
  · rw [if_pos rfl, if_pos rfl]

theorem headerWF_new (w h d m a fmt : Nat) (cube : Bool)
    (hw : w < U32M) (hh : h < U32M) (hd : d < U32M) (hm : m < U32M)
    (ha : a < U32M) (hf : fmt < U32M) :
    HeaderWF (ScratchImage.new w h d m a fmt cube).dds_header := by
  intro wrd hwrd
  simp only [ScratchImage.new, headerWords, List.mem_cons, List.not_mem_nil,
    or_false] at hwrd
  rcases hwrd with rfl | rfl | rfl | rfl | rfl | rfl | rfl | rfl | rfl | rfl | rfl | rfl |
    rfl | rfl | rfl | rfl | rfl | rfl | rfl | rfl | rfl | rfl | rfl | rfl | rfl | rfl |
    rfl | rfl | rfl | rfl | rfl | rfl | rfl | rfl | rfl | rfl | rfl <;>
  repeat'
    first
    | exact hw
    | exact hh
    | exact hd
    | exact hm
    | exact ha
    | exact hf
    | exact pals_snd_lt _ _ _
    | exact pals_fst_lt _ _ _
    | decide
    | apply ite_lt
    | apply or32_lt

theorem decode_magic_iff (bs : List Nat) (hlen : 4 ≤ bs.length)
    (hbytes : ∀ b ∈ bs, b < 256) :
    ((decodeHeader bs).magic = MAGIC_DDS ↔ bs.take 4 = [68, 68, 83, 32]) := by
  match bs, hlen with
  | b0 :: b1 :: b2 :: b3 :: rest, _ =>
    have hb0 : b0 < 256 := hbytes _ (by simp)
    have hb1 : b1 < 256 := hbytes _ (by simp)
    have hb2 : b2 < 256 := hbytes _ (by simp)
    have hb3 : b3 < 256 := hbytes _ (by simp)
    have hmag : (decodeHeader (b0 :: b1 :: b2 :: b3 :: rest)).magic = le4 b0 b1 b2 b3 := rfl
    have ht : (b0 :: b1 :: b2 :: b3 :: rest).take 4 = [b0, b1, b2, b3] := rfl
    rw [hmag, ht]
    simp only [MAGIC_DDS, le4, List.cons.injEq, and_true]
    omega

theorem loadExpectedSize_new (w h d m a fmt : Nat) (cube : Bool) :
    loadExpectedSize (ScratchImage.new w h d m a fmt cube).dds_header =
      mul32 (mipChainSize w h fmt m) (if cube then 6 else 1) := by
  have hproj : loadExpectedSize (ScratchImage.new w h d m a fmt cube).dds_header =
      (if ((if cube then 0 ||| DDS_RESOURCE_MISC_TEXTURECUBE else 0) &&&
          DDS_RESOURCE_MISC_TEXTURECUBE = DDS_RESOURCE_MISC_TEXTURECUBE)
       then mul32 (mipChainSize w h fmt m) 6
       else mipChainSize w h fmt m) := rfl
  rw [hproj]
  cases cube
  · rw [if_neg (by decide)]
    exact (mul32_one _ (mipChainSize_lt _ _ _ _)).symm
  · rw [if_pos (by decide)]
    rfl

/-! ## Sample fixtures used by the witnesses -/

/-- 4×4, one mip, one layer, uncompressed 32-bpp format (DXGI code 28):
64-byte payload. -/
def sample32 : ScratchImage := ScratchImage.new 4 4 1 1 1 28 false

/-- 4×4, one mip, one layer, block-compressed BC1 (DXGI code 71): one 8-byte
block. -/
def sampleBC1 : ScratchImage := ScratchImage.new 4 4 1 1 1 71 false

/-- The serialized bytes of `sample32`. -/
def sampleBytes32 : List Nat := sample32.write_to

/-- The serialized bytes of `sampleBC1`. -/
def sampleBytesBC1 : List Nat := sampleBC1.write_to

/-! ## The claims -/

/-- C2: typed view gating.  The gate itself is as claimed: the view is absent
exactly when the element size differs from `bits_per_pixel(format)/8`.  But at
a matching element size the source passes `dds_data.len() * size_of::<T>()`
as the element count of `slice::from_raw_parts`, so on a 64-byte, 32-bpp
container an element size of 4 yields a 256-element (1024-byte) view: the
element count times the element size is `len * size^2`, not the payload
length.  This contradicts the spec (`count * size == payload length`) and the
`from_raw_parts` contract (the view must lie within the allocation); the
intended count is `len / size`. -/
theorem c2_typed_slice_at_bug_input :
    sample32.as_typed_slice 4 = some 256 ∧
    sample32.as_typed_slice_mut 4 = some 256 ∧
    sample32.as_typed_slice 3 = none ∧
    sample32.as_typed_slice_mut 3 = none ∧
    sample32.dds_data.length = 64 ∧
    256 * 4 ≠ 64 := by decide

/-- C4: `new` never fails and allocates a zero-filled payload whose length is
the mip-chain sum, times 6 when `is_cubemap`, times `array_size` (`u32`
arithmetic, as the `u32`-typed source performs it). -/
theorem c4_new_payload (w h d m a fmt : Nat) (cube : Bool) :
    (ScratchImage.new w h d m a fmt cube).dds_data.length =
      newExpectedSize w h fmt m a cube ∧
    ∀ b ∈ (ScratchImage.new w h d m a fmt cube).dds_data, b = 0 := by
  rw [new_dds_data]
  exact ⟨List.length_replicate _ _, fun b hb => List.eq_of_mem_replicate hb⟩

/-- C8: totality of the load path — for every input byte stream,
`from_reader` terminates with either `Ok` or one of the typed errors
(modelled with release/wrapping `u32` semantics; the structurally bounded
`1..mipmap_count` loop terminates for every header value). -/
theorem c8_total (bs : List Nat) :
    (∃ img, ScratchImage.from_reader bs = Except.ok img) ∨
    (∃ e, ScratchImage.from_reader bs = Except.error e) := by
  cases hr : ScratchImage.from_reader bs with
  | ok img => exact Or.inl ⟨img, rfl⟩
  | error e => exact Or.inr ⟨e, rfl⟩

/-- C10: `new` assigns the resource dimension with last-wins precedence
(3D whenever `depth > 1`, else 2D whenever `height > 1`, else 1D whenever
`width > 1`, else unknown); with all dimensions ≤ 1 none of the three
dimension predicates holds; and on every container at most one of them
holds. -/
theorem c10_dimension (w h d m a fmt : Nat) (cube : Bool) (img : ScratchImage) :
    ((ScratchImage.new w h d m a fmt cube).dds_header.dxt10.resource_dimension =
      if d > 1 then D3D10_RESOURCE_DIMENSION_TEXTURE3D
      else if h > 1 then D3D10_RESOURCE_DIMENSION_TEXTURE2D
      else if w > 1 then D3D10_RESOURCE_DIMENSION_TEXTURE1D
      else D3D10_RESOURCE_DIMENSION_UNKNOWN) ∧
    (w ≤ 1 → h ≤ 1 → d ≤ 1 →
      (ScratchImage.new w h d m a fmt cube).is_texture1d = false ∧
      (ScratchImage.new w h d m a fmt cube).is_texture2d = false ∧
      (ScratchImage.new w h d m a fmt cube).is_texture3d = false) ∧
    (¬(img.is_texture1d = true ∧ img.is_texture2d = true) ∧
     ¬(img.is_texture1d = true ∧ img.is_texture3d = true) ∧
     ¬(img.is_texture2d = true ∧ img.is_texture3d = true)) := by
  refine ⟨rfl, ?_, ?_, ?_, ?_⟩
  · intro hw hh hd
    have hw' : ¬(w > 1) := by omega
    have hh' : ¬(h > 1) := by omega
    have hd' : ¬(d > 1) := by omega
    refine ⟨?_, ?_, ?_⟩ <;>
      simp [ScratchImage.is_texture1d, ScratchImage.is_texture2d,
        ScratchImage.is_texture3d, ScratchImage.new, hw', hh', hd',
        D3D10_RESOURCE_DIMENSION_UNKNOWN, D3D10_RESOURCE_DIMENSION_TEXTURE1D,
        D3D10_RESOURCE_DIMENSION_TEXTURE2D, D3D10_RESOURCE_DIMENSION_TEXTURE3D]
  · rintro ⟨ha', hb'⟩
    simp [ScratchImage.is_texture1d, ScratchImage.is_texture2d,
      D3D10_RESOURCE_DIMENSION_TEXTURE1D, D3D10_RESOURCE_DIMENSION_TEXTURE2D,
      decide_eq_true_eq] at ha' hb'
    omega
  · rintro ⟨ha', hb'⟩
    simp [ScratchImage.is_texture1d, ScratchImage.is_texture3d,
      D3D10_RESOURCE_DIMENSION_TEXTURE1D, D3D10_RESOURCE_DIMENSION_TEXTURE3D,
      decide_eq_true_eq] at ha' hb'
    omega
  · rintro ⟨ha', hb'⟩
    simp [ScratchImage.is_texture2d, ScratchImage.is_texture3d,
      D3D10_RESOURCE_DIMENSION_TEXTURE2D, D3D10_RESOURCE_DIMENSION_TEXTURE3D,
      decide_eq_true_eq] at ha' hb'
    omega

/-- C10 witness: the theorem applied at a 1×1×1 container and at `sample32`. -/
theorem c10_dimension_witness :
    ((ScratchImage.new 1 1 1 1 1 28 false).dds_header.dxt10.resource_dimension =
      if (1 : Nat) > 1 then D3D10_RESOURCE_DIMENSION_TEXTURE3D
      else if (1 : Nat) > 1 then D3D10_RESOURCE_DIMENSION_TEXTURE2D
      else if (1 : Nat) > 1 then D3D10_RESOURCE_DIMENSION_TEXTURE1D
      else D3D10_RESOURCE_DIMENSION_UNKNOWN) ∧
    ((ScratchImage.new 1 1 1 1 1 28 false).is_texture1d = false ∧
     (ScratchImage.new 1 1 1 1 1 28 false).is_texture2d = false ∧
     (ScratchImage.new 1 1 1 1 1 28 false).is_texture3d = false) ∧
    (¬(sample32.is_texture1d = true ∧ sample32.is_texture2d = true) ∧
     ¬(sample32.is_texture1d = true ∧ sample32.is_texture3d = true) ∧
     ¬(sample32.is_texture2d = true ∧ sample32.is_texture3d = true)) :=
  ⟨(c10_dimension 1 1 1 1 1 28 false sample32).1,
   (c10_dimension 1 1 1 1 1 28 false sample32).2.1 (by decide) (by decide) (by decide),
   (c10_dimension 1 1 1 1 1 28 false sample32).2.2⟩

/-- C5: header validation order on load — for every byte stream of at least
148 bytes, a magic other than `"DDS "` yields `BadFileMagic` regardless of
all subsequent bytes; otherwise a base size other than 124 yields
`BadFileHeader`; otherwise a pixel-format sub-record size other than 32
yields `BadPixelFormat`; otherwise a four-CC tag other than `"DX10"` yields
`NotImplementedYet`; in each case no container is returned. -/
theorem c5_header_validation (bs : List Nat) (hlen : 148 ≤ bs.length)
    (hbytes : ∀ b ∈ bs, b < 256) :
    (bs.take 4 ≠ [68, 68, 83, 32] →
      ScratchImage.from_reader bs = Except.error Error.BadFileMagic) ∧
    (bs.take 4 = [68, 68, 83, 32] → (decodeHeader bs).size ≠ 124 →
      ScratchImage.from_reader bs = Except.error Error.BadFileHeader) ∧
    (bs.take 4 = [68, 68, 83, 32] → (decodeHeader bs).size = 124 →
      (decodeHeader bs).pixel_format.size ≠ 32 →
      ScratchImage.from_reader bs = Except.error Error.BadPixelFormat) ∧
    (bs.take 4 = [68, 68, 83, 32] → (decodeHeader bs).size = 124 →
      (decodeHeader bs).pixel_format.size = 32 →
      (decodeHeader bs).pixel_format.four_cc ≠ FOURCC_DX10 →
      ScratchImage.from_reader bs = Except.error (Error.NotImplementedYet
        "File does not have DX10 headers, DX9 files are not implemented yet")) := by
  have hmag := decode_magic_iff bs (by omega) hbytes
  have hfr : ScratchImage.from_reader bs =
      from_reader_core (decodeHeader bs) (bs.drop 148) := by
    unfold ScratchImage.from_reader
    rw [if_neg (by omega)]
  refine ⟨?_, ?_, ?_, ?_⟩
  · intro hne
    rw [hfr]
    simp only [from_reader_core]
    rw [if_pos (fun heq => hne (hmag.mp heq))]
  · intro hmg h2
    rw [hfr]
    simp only [from_reader_core]
    rw [if_neg (by simp [hmag.mpr hmg]), if_pos h2]
  · intro hmg h2 h3
    rw [hfr]
    simp only [from_reader_core]
    rw [if_neg (by simp [hmag.mpr hmg]), if_neg (by simp [h2]), if_pos h3]
  · intro hmg h2 h3 h4
    rw [hfr]
    simp only [from_reader_core]
    rw [if_neg (by simp [hmag.mpr hmg]), if_neg (by simp [h2]),
        if_neg (by simp [h3]), if_pos h4]

/-- C5 witness: an all-zero 148-byte stream is rejected with `BadFileMagic`. -/
theorem c5_header_validation_witness :
    ScratchImage.from_reader (List.replicate 148 0) = Except.error Error.BadFileMagic :=
  (c5_header_validation (List.replicate 148 0) (by decide) (by decide)).1 (by decide)

/-- C6: mip-0 size validation — once the four header checks pass, a
block-compressed format yields `BadLinearSize` exactly when the computed
linear size differs from `pitch_or_linear_size`, and an uncompressed format
yields `BadPitch` exactly when the computed row pitch differs from it. -/
theorem c6_mip0_validation (bs : List Nat) (hlen : 148 ≤ bs.length)
    (h1 : (decodeHeader bs).magic = MAGIC_DDS) (h2 : (decodeHeader bs).size = 124)
    (h3 : (decodeHeader bs).pixel_format.size = 32)
    (h4 : (decodeHeader bs).pixel_format.four_cc = FOURCC_DX10) :
    (is_block_compressed (decodeHeader bs).dxt10.dxgi_format = true →
      (ScratchImage.from_reader bs = Except.error Error.BadLinearSize ↔
        (pitch_and_linear_size (decodeHeader bs).width (decodeHeader bs).height
          (decodeHeader bs).dxt10.dxgi_format).2 ≠
          (decodeHeader bs).pitch_or_linear_size)) ∧
    (is_block_compressed (decodeHeader bs).dxt10.dxgi_format = false →
      (ScratchImage.from_reader bs = Except.error Error.BadPitch ↔
        (pitch_and_linear_size (decodeHeader bs).width (decodeHeader bs).height
          (decodeHeader bs).dxt10.dxgi_format).1 ≠
          (decodeHeader bs).pitch_or_linear_size)) := by
  have hfr : ScratchImage.from_reader bs =
      from_reader_core (decodeHeader bs) (bs.drop 148) := by
    unfold ScratchImage.from_reader
    rw [if_neg (by omega)]
  constructor
  · intro hc
    rw [hfr]
    simp only [from_reader_core]
    rw [if_neg (by simp [h1]), if_neg (by simp [h2]), if_neg (by simp [h3]),
        if_neg (by simp [h4]), if_pos hc]
    constructor
    · intro heq
      by_contra hne
      rw [if_neg (not_ne_iff.mpr hne), size_check_eq] at heq
      by_cases h6 : loadExpectedSize (decodeHeader bs) ≠ (bs.drop 148).length % U32M
      · rw [if_pos h6] at heq
        injection heq with h'
        exact absurd h' (by decide)
      · rw [if_neg h6] at heq
        exact Except.noConfusion heq
    · intro hne
      rw [if_pos hne]
  · intro hc
    rw [hfr]
    simp only [from_reader_core]
    rw [if_neg (by simp [h1]), if_neg (by simp [h2]), if_neg (by simp [h3]),
        if_neg (by simp [h4]), if_neg (by simp [hc])]
    constructor
    · intro heq
      by_contra hne
      rw [if_neg (not_ne_iff.mpr hne), size_check_eq] at heq
      by_cases h6 : loadExpectedSize (decodeHeader bs) ≠ (bs.drop 148).length % U32M
      · rw [if_pos h6] at heq
        injection heq with h'
        exact absurd h' (by decide)
      · rw [if_neg h6] at heq
        exact Except.noConfusion heq
    · intro hne
      rw [if_pos hne]

/-- C6 witness: the theorem applied to the serialized BC1 sample (compressed
branch; the stream loads, so the linear size necessarily matches). -/
theorem c6_mip0_validation_witness :
    ScratchImage.from_reader sampleBytesBC1 = Except.error Error.BadLinearSize ↔
      (pitch_and_linear_size (decodeHeader sampleBytesBC1).width
        (decodeHeader sampleBytesBC1).height
        (decodeHeader sampleBytesBC1).dxt10.dxgi_format).2 ≠
        (decodeHeader sampleBytesBC1).pitch_or_linear_size :=
  (c6_mip0_validation sampleBytesBC1 (by decide) (by decide) (by decide) (by decide)
    (by decide)).1 (by decide)

/-- C7: the `pitch_or_linear_size` invariant — every container produced by
`new` stores the mip-0 linear size (compressed) or row pitch (uncompressed),
which is exactly the quantity `from_reader` validates; and every container
produced by `from_reader` satisfies the same equation. -/
theorem c7_pol_invariant :
    (∀ w h d m a fmt cube,
      (ScratchImage.new w h d m a fmt cube).dds_header.pitch_or_linear_size =
        if is_block_compressed fmt
        then (pitch_and_linear_size w h fmt).2
        else (pitch_and_linear_size w h fmt).1) ∧
    (∀ bs img, ScratchImage.from_reader bs = Except.ok img →
      img.dds_header.pitch_or_linear_size =
        if is_block_compressed img.dds_header.dxt10.dxgi_format
        then (pitch_and_linear_size img.dds_header.width img.dds_header.height
          img.dds_header.dxt10.dxgi_format).2
        else (pitch_and_linear_size img.dds_header.width img.dds_header.height
          img.dds_header.dxt10.dxgi_format).1) := by
  constructor
  · intro w h d m a fmt cube
    rfl
  · intro bs img hok
    exact ((from_reader_ok_inv bs img hok).2.2.2.2.2.2.1).symm

/-- C7 witness: the theorem applied to `sample32`'s construction and to the
container loaded back from the serialized BC1 sample. -/
theorem c7_pol_invariant_witness :
    ((ScratchImage.new 4 4 1 1 1 28 false).dds_header.pitch_or_linear_size =
      if is_block_compressed 28
      then (pitch_and_linear_size 4 4 28).2
      else (pitch_and_linear_size 4 4 28).1) ∧
    (sampleBC1.dds_header.pitch_or_linear_size =
      if is_block_compressed sampleBC1.dds_header.dxt10.dxgi_format
      then (pitch_and_linear_size sampleBC1.dds_header.width
        sampleBC1.dds_header.height sampleBC1.dds_header.dxt10.dxgi_format).2
      else (pitch_and_linear_size sampleBC1.dds_header.width
        sampleBC1.dds_header.height sampleBC1.dds_header.dxt10.dxgi_format).1) :=
  ⟨c7_pol_invariant.1 4 4 1 1 1 28 false,
   c7_pol_invariant.2 sampleBytesBC1 sampleBC1 (by decide)⟩

/-- C9 counterexample: `new(4, 4, 1, mipmap_count := 0, array_size := 0, 28,
false)` allocates an empty buffer even though the mip-0 linear size is 64 —
the buffer is mip-0-sized times the multipliers, but not non-empty. -/
theorem c9_counterexample :
    (ScratchImage.new 4 4 1 0 0 28 false).dds_data = [] ∧
    (pitch_and_linear_size 4 4 28).2 = 64 := by decide

/-- C9 (amended): mip 0 is counted before the `1 .. mipmap_count` loop in
both paths, so for `mipmap_count` 0 or 1 the mip-chain sum is exactly the
mip-0 linear size, `new` allocates a buffer of exactly that size times the
cubemap and array multipliers (non-empty only when that product is nonzero),
and the load path's size check accepts exactly a payload whose length as a
`u32` equals the mip-0 size times the cubemap multiplier. -/
theorem c9_mip_edge (w h d m a fmt : Nat) (cube : Bool)
    (hdr : DirectDrawHeader) (data : List Nat)
    (hm : m = 0 ∨ m = 1) (hhdr : hdr.mipmap_count = m) :
    mipChainSize w h fmt m = (pitch_and_linear_size w h fmt).2 ∧
    (ScratchImage.new w h d m a fmt cube).dds_data.length =
      mul32 (mul32 (pitch_and_linear_size w h fmt).2 (if cube then 6 else 1)) a ∧
    loadExpectedSize hdr =
      (if hdr.dxt10.misc_flag &&& DDS_RESOURCE_MISC_TEXTURECUBE =
          DDS_RESOURCE_MISC_TEXTURECUBE
       then mul32 (pitch_and_linear_size hdr.width hdr.height
         hdr.dxt10.dxgi_format).2 6
       else (pitch_and_linear_size hdr.width hdr.height hdr.dxt10.dxgi_format).2) ∧
    (from_reader_size_check hdr data = Except.ok { dds_header := hdr, dds_data := data } ↔
      data.length % U32M = loadExpectedSize hdr) := by
  have hm0 : m - 1 = 0 := by omega
  have hchain : ∀ w' h' f', mipChainSize w' h' f' m = (pitch_and_linear_size w' h' f').2 := by
    intro w' h' f'
    unfold mipChainSize mipLoop
    rw [hm0]
    rfl
  refine ⟨hchain w h fmt, ?_, ?_, ?_⟩
  · rw [new_dds_data, List.length_replicate, newExpectedSize, hchain]
  · unfold loadExpectedSize
    rw [hhdr, hchain]
  · constructor
    · intro hok'
      obtain ⟨_, hsz⟩ := size_check_ok_inv _ _ _ hok'
      exact hsz.symm
    · intro hsz
      rw [size_check_eq, if_neg (by simp [hsz.symm])]

/-- C9 witness: the theorem applied at `mipmap_count = 0` with a 4×4 32-bpp
geometry, its own header and a 64-byte payload. -/
theorem c9_mip_edge_witness :
    mipChainSize 4 4 28 0 = (pitch_and_linear_size 4 4 28).2 ∧
    (ScratchImage.new 4 4 1 0 1 28 false).dds_data.length =
      mul32 (mul32 (pitch_and_linear_size 4 4 28).2 (if false then 6 else 1)) 1 ∧
    loadExpectedSize (ScratchImage.new 4 4 1 0 1 28 false).dds_header =
      (if (ScratchImage.new 4 4 1 0 1 28 false).dds_header.dxt10.misc_flag &&&
          DDS_RESOURCE_MISC_TEXTURECUBE = DDS_RESOURCE_MISC_TEXTURECUBE
       then mul32 (pitch_and_linear_size
         (ScratchImage.new 4 4 1 0 1 28 false).dds_header.width
         (ScratchImage.new 4 4 1 0 1 28 false).dds_header.height
         (ScratchImage.new 4 4 1 0 1 28 false).dds_header.dxt10.dxgi_format).2 6
       else (pitch_and_linear_size
         (ScratchImage.new 4 4 1 0 1 28 false).dds_header.width
         (ScratchImage.new 4 4 1 0 1 28 false).dds_header.height
         (ScratchImage.new 4 4 1 0 1 28 false).dds_header.dxt10.dxgi_format).2) ∧
    (from_reader_size_check (ScratchImage.new 4 4 1 0 1 28 false).dds_header
        (List.replicate 64 0) =
      Except.ok { dds_header := (ScratchImage.new 4 4 1 0 1 28 false).dds_header,
                  dds_data := List.replicate 64 0 } ↔
      (List.replicate (64 : Nat) (0 : Nat)).length % U32M =
        loadExpectedSize (ScratchImage.new 4 4 1 0 1 28 false).dds_header) :=
  c9_mip_edge 4 4 1 0 1 28 false (ScratchImage.new 4 4 1 0 1 28 false).dds_header
    (List.replicate 64 0) (Or.inl rfl) (by decide)

/-- C3 counterexample: the payload length is compared after a cast to `u32`
(`dds_data.len() as _`), so a payload of exactly `2^32` extra bytes slips
through.  With a header whose expected size is 0 and a `2^32`-byte payload,
`from_reader` returns `Ok` even though the expected size (0) differs from the
true remaining length (`2^32`), contradicting the claim's "returns
`Err(BadDataSize)` exactly when this value differs from the length of the
bytes remaining". -/
theorem c3_counterexample :
    ScratchImage.from_reader
        (ScratchImage.write_to (ScratchImage.new 0 0 0 0 1 28 false) ++
          List.replicate U32M 0) =
      Except.ok { dds_header := (ScratchImage.new 0 0 0 0 1 28 false).dds_header,
                  dds_data := List.replicate U32M 0 } ∧
    loadExpectedSize (ScratchImage.new 0 0 0 0 1 28 false).dds_header = 0 ∧
    (List.replicate U32M (0 : Nat)).length = U32M ∧
    (0 : Nat) ≠ U32M := by
  refine ⟨?_, by decide, List.length_replicate _ _, by norm_num [U32M]⟩
  show ScratchImage.from_reader
      ((encodeHeader (ScratchImage.new 0 0 0 0 1 28 false).dds_header ++
        (ScratchImage.new 0 0 0 0 1 28 false).dds_data) ++ List.replicate U32M 0) = _
  rw [show (ScratchImage.new 0 0 0 0 1 28 false).dds_data = ([] : List Nat) from by decide,
      List.append_nil]
  exact from_reader_append _ _
    (headerWF_new 0 0 0 0 1 28 false (by norm_num [U32M]) (by norm_num [U32M])
      (by norm_num [U32M]) (by norm_num [U32M]) (by norm_num [U32M]) (by norm_num [U32M]))
    rfl rfl rfl rfl rfl
    (by rw [List.length_replicate, Nat.mod_self]; decide)

/-- C3 (amended): once the header and mip-0 checks pass, `from_reader`
returns `Err(BadDataSize)` exactly when the expected size (mip-chain sum,
times 6 when the cubemap bit is set, no array multiplier) differs from the
length of the bytes remaining after the 148-byte header *reduced modulo
`2^32`* (the source casts the length to `u32` for the comparison), and
returns `Ok` with the decoded header and the remaining bytes otherwise. -/
theorem c3_total_size_check (bs : List Nat) (hlen : 148 ≤ bs.length)
    (h1 : (decodeHeader bs).magic = MAGIC_DDS) (h2 : (decodeHeader bs).size = 124)
    (h3 : (decodeHeader bs).pixel_format.size = 32)
    (h4 : (decodeHeader bs).pixel_format.four_cc = FOURCC_DX10)
    (h5 : (if is_block_compressed (decodeHeader bs).dxt10.dxgi_format
        then (pitch_and_linear_size (decodeHeader bs).width (decodeHeader bs).height
          (decodeHeader bs).dxt10.dxgi_format).2
        else (pitch_and_linear_size (decodeHeader bs).width (decodeHeader bs).height
          (decodeHeader bs).dxt10.dxgi_format).1)
        = (decodeHeader bs).pitch_or_linear_size) :
    (ScratchImage.from_reader bs = Except.error Error.BadDataSize ↔
      loadExpectedSize (decodeHeader bs) ≠ (bs.drop 148).length % U32M) ∧
    (loadExpectedSize (decodeHeader bs) = (bs.drop 148).length % U32M →
      ScratchImage.from_reader bs =
        Except.ok { dds_header := decodeHeader bs, dds_data := bs.drop 148 }) := by
  rw [from_reader_checks bs hlen h1 h2 h3 h4 h5]
  by_cases hC : loadExpectedSize (decodeHeader bs) ≠ (bs.drop 148).length % U32M
  · rw [if_pos hC]
    exact ⟨iff_of_true rfl hC, fun hsz => absurd hsz hC⟩
  · rw [if_neg hC]
    exact ⟨iff_of_false (fun h' => Except.noConfusion h') hC, fun _ => rfl⟩

/-- C3 witness: the theorem applied to the serialized 32-bpp sample (the
stream loads, so the expected size equals the payload length). -/
theorem c3_total_size_check_witness :
    (ScratchImage.from_reader sampleBytes32 = Except.error Error.BadDataSize ↔
      loadExpectedSize (decodeHeader sampleBytes32) ≠
        (sampleBytes32.drop 148).length % U32M) ∧
    (loadExpectedSize (decodeHeader sampleBytes32) =
        (sampleBytes32.drop 148).length % U32M →
      ScratchImage.from_reader sampleBytes32 =
        Except.ok { dds_header := decodeHeader sampleBytes32,
                    dds_data := sampleBytes32.drop 148 }) :=
  c3_total_size_check sampleBytes32 (by decide) (by decide) (by decide) (by decide)
    (by decide) (by decide)

/-- C1 counterexample: the construction path multiplies the payload size by
`array_size` but the load path's check does not, so a container built by
`new` with `array_size = 2` (128-byte payload) fails to decode from its own
serialization: the round trip ends in `BadDataSize`, refuting the claim for
the construction path with `array_size ≠ 1`. -/
theorem c1_counterexample :
    ScratchImage.from_reader (ScratchImage.write_to (ScratchImage.new 4 4 1 1 2 28 false)) =
      Except.error Error.BadDataSize := by decide

/-- C1 (amended): the round trip holds for every container produced by
`from_reader`, and for every container produced by `new` with
`array_size = 1` (with `u32`-ranged inputs), optionally followed by payload
mutation that preserves the length: decoding `write_to`'s bytes succeeds and
returns the identical header and payload. -/
theorem c1_round_trip (c : ScratchImage)
    (hc : (∃ bs, ScratchImage.from_reader bs = Except.ok c) ∨
      (∃ w h d m fmt, ∃ cube : Bool, ∃ data : List Nat,
        w < U32M ∧ h < U32M ∧ d < U32M ∧ m < U32M ∧ fmt < U32M ∧
        data.length = (ScratchImage.new w h d m 1 fmt cube).dds_data.length ∧
        c = { dds_header := (ScratchImage.new w h d m 1 fmt cube).dds_header,
              dds_data := data })) :
    ScratchImage.from_reader (ScratchImage.write_to c) = Except.ok c := by
  rcases hc with ⟨bs, hok⟩ | ⟨w, h, d, m, fmt, cube, data, hw, hh, hd, hm, hf, hdl, rfl⟩
  · obtain ⟨hhdr, hdata, h1, h2, h3, h4, h5, h6⟩ := from_reader_ok_inv bs c hok
    have hwf : HeaderWF c.dds_header := by
      rw [hhdr]
      exact headerWF_decode bs
    exact from_reader_append c.dds_header c.dds_data hwf h1 h2 h3 h4 h5 h6
  · have hwf := headerWF_new w h d m 1 fmt cube hw hh hd hm (by norm_num [U32M]) hf
    have h6 : loadExpectedSize (ScratchImage.new w h d m 1 fmt cube).dds_header =
        data.length % U32M := by
      rw [hdl, new_dds_data, List.length_replicate, loadExpectedSize_new,
          newExpectedSize, mul32_one _ (mul32_lt _ _), Nat.mod_eq_of_lt (mul32_lt _ _)]
    exact from_reader_append _ data hwf rfl rfl rfl rfl rfl h6

/-- C1 witness: the theorem applied on the construction path to `sample32`. -/
theorem c1_round_trip_witness :
    ScratchImage.from_reader (ScratchImage.write_to sample32) = Except.ok sample32 :=
  c1_round_trip sample32 (Or.inr ⟨4, 4, 1, 1, 28, false, sample32.dds_data,
    by norm_num [U32M], by norm_num [U32M], by norm_num [U32M], by norm_num [U32M],
    by norm_num [U32M], rfl, rfl⟩)
